import Mathlib

/-!
Verification of the HRMS resume-screening engine (`hrm_backend/resumes`).

Python strings are modelled as `List Char`, Python floats as `ℚ`, and
`datetime` timestamps as `ℕ`. `round(x, k)` is modelled as
`round (x * 10^k) / 10^k`; the Lean `round` rounds halves up while Python
rounds halves to even, but no value appearing in the statements below sits
on a half-way tie, so the two agree everywhere they are used.

The `HybridRanker`, `EmbeddingScorer` and `EntityExtractor` classes live in
the sibling `resume-screener` package, which is not part of this source
tree; definitions taken from the specification instead of the source are
marked `Modelled from the spec:` in their doc comments. Everything else is
translated directly from `ml_inference.py`, `tasks.py`, `views.py`,
`models.py` and `serializers.py`.
-/

namespace HRMS

/-- Screening decision enum (`Resume.DECISION_SHORTLISTED` / `DECISION_REJECTED`
in `models.py`). -/
inductive Decision where
  | SHORTLISTED
  | REJECTED
deriving DecidableEq, Repr

/-- Candidate status enum (`Candidate.STATUS_*` in `candidates/models.py`). -/
inductive CandidateStatus where
  | PENDING
  | SHORTLISTED
  | REJECTED
deriving DecidableEq, Repr

/-- The candidate status written by the screening flows
(`candidate.status = result["decision"]`). -/
def Decision.toStatus : Decision → CandidateStatus
  | .SHORTLISTED => .SHORTLISTED
  | .REJECTED => .REJECTED

/-- Python `round(x, 2)`. -/
def round2 (x : ℚ) : ℚ := (round (x * 100) : ℤ) / 100

/-- Python `round(x, 6)` (used for `ner_bonus` in `run_ml_screening`). -/
def round6 (x : ℚ) : ℚ := (round (x * 1000000) : ℤ) / 1000000

/-- The clamp on line 185 of `ml_inference.py`:
`embedding_score = max(0.0, min(1.0, embedding_score))`. -/
def clamp01 (x : ℚ) : ℚ := max 0 (min 1 x)

/-- Embedding fusion weight passed to `HybridRanker` in `_get_hybrid_ranker`. -/
def wEmbedding : ℚ := 0.50

/-- Skill-overlap fusion weight passed to `HybridRanker`. -/
def wSkill : ℚ := 0.35

/-- NER-bonus fusion weight passed to `HybridRanker`. -/
def wNerBonus : ℚ := 0.15

/-- Modelled from the spec: `HybridRanker.hybrid_score` lives in the sibling
`resume-screener` package, which is not under this source tree. Per §4.5 the
final score is the fixed-weight linear fusion
`w_embedding·e + w_skill·s + w_ner_bonus·n`, produced in `[0,1]`. -/
def hybridFinalScore (e s n : ℚ) : ℚ := wEmbedding * e + wSkill * s + wNerBonus * n

/-- The scaling and rounding on line 220 of `ml_inference.py`:
`final_score = round(float(hybrid_result["final_score"]) * 100, 2)`. -/
def scaledFinalScore (e s n : ℚ) : ℚ := round2 (hybridFinalScore e s n * 100)

/-- The decision threshold on line 226 of `ml_inference.py`:
`decision = "SHORTLISTED" if final_score >= 60 else "REJECTED"`. -/
def mlDecision (e s n : ℚ) : Decision :=
  if scaledFinalScore e s n ≥ 60 then .SHORTLISTED else .REJECTED

/-- The embedding component exposed in the result dict on line 231 of
`ml_inference.py`: `round(float(hybrid_result["embedding"]) * 100, 2)`, where
the ranker (modelled from the spec, which requires every component score to be
exposed unchanged) reports the clamped embedding similarity it was given. -/
def exposedEmbeddingScore (raw : ℚ) : ℚ := round2 (clamp01 raw * 100)

/- ------------------------------------------------------------------ -/
/- String helpers (Python strings as `List Char`).                     -/
/- ------------------------------------------------------------------ -/

/-- Python `str.lower()` (ASCII case folding, which is all the code relies on). -/
def lowerChars (s : List Char) : List Char := s.map Char.toLower

/-- Whitespace recognised by Python `str.strip()` (the characters that occur
in this code base's inputs). -/
def isSpaceChar (c : Char) : Bool := c = ' ' || c = '\t' || c = '\n' || c = '\r'

/-- Python `str.strip()`. -/
def stripChars (s : List Char) : List Char :=
  ((s.dropWhile isSpaceChar).reverse.dropWhile isSpaceChar).reverse

/-- Python `str.split(",")`: splits on every comma, keeping empty pieces, and
returns `[""]` on the empty string. -/
def splitOnComma : List Char → List (List Char)
  | [] => [[]]
  | c :: rest =>
      match splitOnComma rest with
      | [] => [[]]
      | g :: gs => if c = ',' then [] :: g :: gs else (c :: g) :: gs

/-- The `_parse_required_skills` helper in `views.py`:
`[s.strip() for s in (required_skills or "").split(",") if s.strip()]`. -/
def parseRequiredSkills (required : List Char) : List (List Char) :=
  ((splitOnComma required).map stripChars).filter (fun s => !s.isEmpty)

/-- The extension computed by `os.path.splitext(path)[1]` (posixpath rules:
only the final path component is considered, and leading dots of that
component do not start an extension). -/
def extOf (path : List Char) : List Char :=
  let base := (path.reverse.takeWhile (fun c => c ≠ '/')).reverse
  let stripped := base.dropWhile (fun c => c = '.')
  if stripped.contains '.' then
    '.' :: (stripped.reverse.takeWhile (fun c => c ≠ '.')).reverse
  else []

/- ------------------------------------------------------------------ -/
/- Document extraction (`parse_resume_file` in `ml_inference.py`).     -/
/- ------------------------------------------------------------------ -/

/-- Errors raised out of `parse_resume_file`: the `ValueError` for an
unsupported extension (the spec's `UnsupportedFormat`), or an error from the
underlying PDF/DOCX extraction (the spec's `ExtractionError`). -/
inductive ParseErr where
  | unsupportedFormat (ext : List Char)
  | extractionFailure (msg : List Char)
deriving DecidableEq, Repr

/-- The `parse_resume_file` dispatcher in `ml_inference.py` (lines 115-128):
lower-case the `os.path.splitext` extension, call the PDF extractor on
`.pdf`, the DOCX extractor on `.docx`, and raise
`ValueError("Unsupported resume format: ...")` otherwise. The two extractors
(PyMuPDF and python-docx, external libraries) are taken as parameters. -/
def parseResumeFile (extractPdf extractDocx : List Char → Except (List Char) (List Char))
    (path : List Char) : Except ParseErr (List Char) :=
  let ext := lowerChars (extOf path)
  if ext = (".pdf").data then (extractPdf path).mapError ParseErr.extractionFailure
  else if ext = (".docx").data then (extractDocx path).mapError ParseErr.extractionFailure
  else .error (.unsupportedFormat ext)

/- ------------------------------------------------------------------ -/
/- The ML screening result (`run_ml_screening` in `ml_inference.py`).  -/
/- ------------------------------------------------------------------ -/

/-- The dict returned by `run_ml_screening` (lines 228-237). -/
structure MLResult where
  score : ℚ
  embedding_score : ℚ
  skill_score : ℚ
  ner_bonus : ℚ
  extracted_skills : List (List Char)
  matched_skills : List (List Char)
  decision : Decision
deriving DecidableEq, Repr

/-- Modelled from the spec: the skill-overlap component computed inside
`HybridRanker.hybrid_score` (sibling `resume-screener` package, not under this
source tree). Per §4.5 it is `|resume_skills ∩ job_skills| / max(1, |job_skills|)`
clamped to `[0,1]`, with the skill lists read as sets. -/
def skillOverlap (resumeSkills jobSkills : List (List Char)) : ℚ :=
  clamp01 (((resumeSkills.dedup.filter (fun s => decide (s ∈ jobSkills))).length : ℚ)
    / ((max 1 jobSkills.dedup.length : ℕ) : ℚ))

/-- The matched-skills comprehension in `run_ml_screening` (lines 202-205):
`[skill for skill in extracted_skills if skill.lower() in job_desc_lower]`,
where `in` is Python substring containment. -/
def mlMatchedSkills (extracted : List (List Char)) (jobDescription : List Char) :
    List (List Char) :=
  let jdLower := lowerChars jobDescription
  extracted.filter (fun skill => decide (List.IsInfix (lowerChars skill) jdLower))

/-- The post-extraction body of `run_ml_screening` (lines 180-237). The
outputs of the external models are parameters: `rawSimilarity` from
`EmbeddingScorer.compute_similarity`, `resumeSkills`/`jobSkills` from
`EntityExtractor.extract`, and `nerBonus` from the ranker's NER sub-formula
(an implementation detail the spec leaves open). -/
def runMLScreening (rawSimilarity : ℚ) (resumeSkills jobSkills : List (List Char))
    (nerBonus : ℚ) (jobDescription : List Char) : MLResult :=
  let e := clamp01 rawSimilarity
  let s := skillOverlap resumeSkills jobSkills
  let final := scaledFinalScore e s nerBonus
  { score := final
    embedding_score := round2 (e * 100)
    skill_score := round2 (s * 100)
    ner_bonus := round6 nerBonus
    extracted_skills := resumeSkills
    matched_skills := mlMatchedSkills resumeSkills jobDescription
    decision := if final ≥ 60 then .SHORTLISTED else .REJECTED }

/- ------------------------------------------------------------------ -/
/- The synchronous screen endpoint (`ResumeScreenAPIView.post`).       -/
/- ------------------------------------------------------------------ -/

/-- The fixed mock extraction list in `views.py` line 72. -/
def extractedSkillsMock : List (List Char) :=
  [("Python").data, ("Django").data, ("REST").data, ("SQL").data, ("Git").data,
   ("Docker").data]

/-- The matched-skills comprehension in `views.py` lines 75-76: extracted
skills whose lower-casing is among the lower-cased required skills. -/
def syncMatchedSkills (required : List Char) : List (List Char) :=
  let requiredLower := (parseRequiredSkills required).map lowerChars
  extractedSkillsMock.filter (fun s => decide (lowerChars s ∈ requiredLower))

/-- The score computation in `views.py` lines 78-81:
`(len(matched) / len(job_required)) * 100` when required skills exist, else `0.0`. -/
def syncRawScore (required : List Char) : ℚ :=
  if parseRequiredSkills required ≠ [] then
    (((syncMatchedSkills required).length : ℚ)
      / ((parseRequiredSkills required).length : ℚ)) * 100
  else 0

/-- The decision in `views.py` line 83. -/
def syncDecision (required : List Char) : Decision :=
  if syncRawScore required ≥ 60 then .SHORTLISTED else .REJECTED

/-- What the synchronous screen endpoint computes and persists
(`views.py` lines 86-90; `match_score` is saved as `round(score, 2)`). -/
structure ScreenOutput where
  extracted_skills : List (List Char)
  matched_skills : List (List Char)
  match_score : ℚ
  decision : Decision
deriving DecidableEq, Repr

/-- The screening computation of `ResumeScreenAPIView.post` as a function of
the job's `required_skills` string (the only input it reads). -/
def syncScreenCompute (required : List Char) : ScreenOutput :=
  { extracted_skills := extractedSkillsMock
    matched_skills := syncMatchedSkills required
    match_score := round2 (syncRawScore required)
    decision := syncDecision required }

/-- The data the screen endpoint receives for a resume: the owning job's
fields and the uploaded file's content. Mirrors
`Resume.objects.select_related("candidate", "job").get(id=resume_id)`. -/
structure ResumeRow where
  jobRequiredSkills : List Char
  jobDescription : List Char
  fileContent : List Char
deriving DecidableEq, Repr

/-- `ResumeScreenAPIView.post` (lines 59-105): it reads only
`resume.job.required_skills` from the loaded row; the uploaded file content
is never opened. -/
def screenEndpoint (row : ResumeRow) : ScreenOutput :=
  syncScreenCompute row.jobRequiredSkills

/- ------------------------------------------------------------------ -/
/- Persisted records and the orchestrator's writes.                    -/
/- ------------------------------------------------------------------ -/

/-- The screening-related columns of the `Resume` model (`models.py`
lines 30-41). Note the model has no `ner_bonus` column. -/
structure ResumeRecord where
  extracted_skills : List (List Char)
  matched_skills : List (List Char)
  match_score : ℚ
  decision : Option Decision
  screened_at : Option ℕ
  error_message : List Char
deriving DecidableEq, Repr

/-- The columns of `Candidate` written by screening
(`candidates/models.py`). -/
structure CandidateRecord where
  match_score : Option ℚ
  status : CandidateStatus
deriving DecidableEq, Repr

/-- A `Resume` row as created by upload, with the model's field defaults. -/
def freshResume : ResumeRecord :=
  { extracted_skills := []
    matched_skills := []
    match_score := 0
    decision := none
    screened_at := none
    error_message := [] }

/-- A `Candidate` row as created by upload (`status` defaults to `PENDING`,
`match_score` is nullable and unset). -/
def freshCandidate : CandidateRecord := { match_score := none, status := .PENDING }

/-- The resume update of the success branch of `screen_resume_task`
(`tasks.py` lines 47-63): write the result fields, set `screened_at = now`,
clear `error_message`. -/
def taskSuccessResume (r : ResumeRecord) (res : MLResult) (t : ℕ) : ResumeRecord :=
  { r with
    match_score := res.score
    extracted_skills := res.extracted_skills
    matched_skills := res.matched_skills
    decision := some res.decision
    screened_at := some t
    error_message := [] }

/-- The candidate update of the success branch of `screen_resume_task`
(`tasks.py` lines 65-69). -/
def taskSuccessCandidate (c : CandidateRecord) (res : MLResult) : CandidateRecord :=
  { c with match_score := some res.score, status := res.decision.toStatus }

/-- The failure branch of `screen_resume_task` (`tasks.py` lines 78-84):
only `error_message` is written (`update_fields=["error_message"]`);
`screened_at` and the result fields are untouched. -/
def taskFailureResume (r : ResumeRecord) (msg : List Char) : ResumeRecord :=
  { r with error_message := msg }

/-- The resume update of `ResumeScreenAPIView.post` (`views.py` lines 86-99):
its `update_fields` do not include `error_message`, which is left as is. -/
def syncScreenResume (r : ResumeRecord) (required : List Char) (t : ℕ) : ResumeRecord :=
  let out := syncScreenCompute required
  { r with
    extracted_skills := out.extracted_skills
    matched_skills := out.matched_skills
    match_score := out.match_score
    decision := some out.decision
    screened_at := some t }

/-- The candidate update of `ResumeScreenAPIView.post`
(`views.py` lines 102-105). -/
def syncScreenCandidate (c : CandidateRecord) (required : List Char) : CandidateRecord :=
  let out := syncScreenCompute required
  { c with match_score := some out.match_score, status := out.decision.toStatus }

/-- A completed screening attempt on one resume record: an async task run that
succeeded, an async task run that raised (with the exception's message), or a
synchronous screen-endpoint call. -/
inductive ScreenEvent where
  | taskSuccess (res : MLResult) (t : ℕ)
  | taskFailure (msg : List Char)
  | syncScreen (required : List Char) (t : ℕ)
deriving Repr

/-- The record update performed by one completed attempt. -/
def applyEvent (r : ResumeRecord) : ScreenEvent → ResumeRecord
  | .taskSuccess res t => taskSuccessResume r res t
  | .taskFailure msg => taskFailureResume r msg
  | .syncScreen required t => syncScreenResume r required t

/-- The record state after a sequence of completed attempts. -/
def runEvents (r : ResumeRecord) (evts : List ScreenEvent) : ResumeRecord :=
  evts.foldl applyEvent r

/-- Whether an attempt succeeded. -/
def eventSucceeded : ScreenEvent → Bool
  | .taskFailure _ => false
  | _ => true

/-- Whether the most recent completed attempt succeeded (`false` when there
has been no attempt). -/
def lastAttemptSucceeded (evts : List ScreenEvent) : Bool :=
  (evts.getLast?.map eventSucceeded).getD false

/-- A concrete successful screening result used in closed statements. -/
def demoResult : MLResult :=
  { score := 72.5
    embedding_score := 80
    skill_score := 66.67
    ner_bonus := 0.5
    extracted_skills := [("Python").data]
    matched_skills := [("Python").data]
    decision := .SHORTLISTED }

/-- The attempt sequence of a success followed by a failed re-screening. -/
def successThenFailure : List ScreenEvent :=
  [.taskSuccess demoResult 5, .taskFailure (("cannot parse PDF").data)]

/-- The `update_fields` list of the success branch of `screen_resume_task`
(`tasks.py` lines 54-63). -/
def screenSuccessUpdateFields : List String :=
  ["match_score", "extracted_skills", "matched_skills", "decision", "screened_at",
   "error_message"]

/-- The `update_fields` list of the failure branch of `screen_resume_task`
(`tasks.py` line 82). -/
def screenFailureUpdateFields : List String := ["error_message"]

/-- The `update_fields` list of `ResumeScreenAPIView.post`
(`views.py` lines 91-99). -/
def syncScreenUpdateFields : List String :=
  ["extracted_skills", "matched_skills", "match_score", "decision", "screened_at"]

/-- The orchestrator-to-storage write contract stated in §6 of the spec. -/
def specWriteContract : List String :=
  ["match_score", "extracted_skills", "matched_skills", "ner_bonus", "decision",
   "screened_at", "error_message"]

/-- The field names of the `Resume` model (`models.py`). -/
def resumeModelFields : List String :=
  ["candidate", "job", "resume_file", "extracted_skills", "matched_skills",
   "match_score", "decision", "screened_at", "error_message"]

/-- The `Meta.fields` list declared by `ResumeResultSerializer`
(`serializers.py`), which names a `ner_bonus` field on the `Resume` model. -/
def resumeResultSerializerFields : List String :=
  ["id", "candidate_name", "candidate_email", "job", "job_title",
   "job_required_skills", "extracted_skills", "matched_skills", "match_score",
   "ner_bonus", "decision", "screened_at", "error_message"]

/- ------------------------------------------------------------------ -/
/- The Celery retry loop around `screen_resume_task`.                  -/
/- ------------------------------------------------------------------ -/

/-- The `max_retries=3` argument of the `@shared_task` decorator on
`screen_resume_task` (`tasks.py` line 15): the maximum number of retries
after the initial run. -/
def celeryMaxRetries : ℕ := 3

/-- The `default_retry_delay=60` argument of the decorator; `self.retry` is
called without a countdown, so every retry is scheduled with this delay. -/
def celeryRetryDelay : ℕ := 60

/-- What one execution of the task body does once the record is loaded:
either the pipeline returns a result (persisted with timestamp `t`), or it
raises with some message. -/
inductive AttemptOutcome where
  | success (res : MLResult) (t : ℕ)
  | failure (msg : List Char)

/-- The Celery execution loop: run the task body; on success stop; on failure
persist the error and, while the retry count is below `max_retries`, schedule
a re-run after the fixed delay, otherwise stop in terminal failure. Returns
the final record, the number of attempts executed, and the list of delays
used between consecutive attempts. `fuel` only forces termination; the loop
is entered with more fuel than the retry bound permits attempts. -/
def celeryGo (outcomes : ℕ → AttemptOutcome) :
    ℕ → ℕ → ResumeRecord → ResumeRecord × ℕ × List ℕ
  | 0, k, r => (r, k, [])
  | fuel + 1, k, r =>
    match outcomes k with
    | .success res t => (taskSuccessResume r res t, k + 1, [])
    | .failure msg =>
        let r2 := taskFailureResume r msg
        if k < celeryMaxRetries then
          let next := celeryGo outcomes fuel (k + 1) r2
          (next.1, next.2.1, celeryRetryDelay :: next.2.2)
        else (r2, k + 1, [])

/-- One enqueued screening, run to completion by Celery. -/
def celeryRun (outcomes : ℕ → AttemptOutcome) (r : ResumeRecord) :
    ResumeRecord × ℕ × List ℕ :=
  celeryGo outcomes (celeryMaxRetries + 1) 0 r

/-- An outcome stream on which every attempt raises, e.g. a resume whose PDF
cannot be parsed. -/
def allFailOutcomes : ℕ → AttemptOutcome :=
  fun _ => .failure (("cannot open broken.pdf").data)

/- ------------------------------------------------------------------ -/
/- Batch screening dispatch.                                           -/
/- ------------------------------------------------------------------ -/

/-- Modelled from the spec: `BatchScreenJobAPIView` is imported by
`resumes/urls.py` but its definition is absent from the source tree. Per the
batch-dispatch interface in §6 and §4.6 of the spec, it selects every resume
of the given job whose `screened_at` is null at dispatch time, enqueues one
independent screening attempt per selected record, and returns the count.
Input rows are the `(resume id, screened_at)` pairs of the job's resumes;
output is the list of enqueued resume ids and `count_enqueued`. -/
def enqueueBatchScreening (rows : List (ℕ × Option ℕ)) : List ℕ × ℕ :=
  let pending := (rows.filter (fun row => row.2.isNone)).map Prod.fst
  (pending, pending.length)

/-- The spec's batch scenario: five unscreened and two already-screened
resumes of one job. -/
def batchDemoRows : List (ℕ × Option ℕ) :=
  [(1, none), (2, none), (3, none), (4, none), (5, none), (6, some 100),
   (7, some 200)]

/- ------------------------------------------------------------------ -/
/- Helper lemmas on rounding and clamping.                             -/
/- ------------------------------------------------------------------ -/

lemma round2_nonneg (x : ℚ) (h : 0 ≤ x) : 0 ≤ round2 x := by
  unfold round2
  have h1 : (0 : ℤ) ≤ round (x * 100) := by
    rw [round_eq]
    exact Int.floor_nonneg.mpr (by linarith)
  positivity

lemma round2_le_100 (x : ℚ) (h : x ≤ 100) : round2 x ≤ 100 := by
  unfold round2
  have h1 : round (x * 100) ≤ (10000 : ℤ) := by
    rw [round_eq]
    have : x * 100 + 1 / 2 < 10001 := by linarith
    have h2 : ⌊x * 100 + 1 / 2⌋ < (10001 : ℤ) := Int.floor_lt.mpr (by exact_mod_cast this)
    omega
  have h2 : ((round (x * 100) : ℤ) : ℚ) ≤ 10000 := by exact_mod_cast h1
  linarith

lemma clamp01_nonneg (x : ℚ) : 0 ≤ clamp01 x := le_max_left 0 _

lemma clamp01_le_one (x : ℚ) : clamp01 x ≤ 1 :=
  max_le (by norm_num) (min_le_left 1 x)

lemma hybridFinalScore_nonneg (e s n : ℚ) (he : 0 ≤ e) (hs : 0 ≤ s) (hn : 0 ≤ n) :
    0 ≤ hybridFinalScore e s n := by
  unfold hybridFinalScore wEmbedding wSkill wNerBonus
  nlinarith

lemma hybridFinalScore_le_one (e s n : ℚ) (he : e ≤ 1) (hs : s ≤ 1) (hn : n ≤ 1) :
    hybridFinalScore e s n ≤ 1 := by
  unfold hybridFinalScore wEmbedding wSkill wNerBonus
  nlinarith

/- ------------------------------------------------------------------ -/
/- Claim theorems on the numeric fusion.                               -/
/- ------------------------------------------------------------------ -/

/-- Claim C2: for every valid embedding score `e`, skill-overlap `s` and NER
bonus `n` in `[0,1]`, the final score equals
`round(100 × (0.50·e + 0.35·s + 0.15·n), 2)`, lies in `[0, 100]`, and the
three fusion weights sum to `1`. -/
theorem final_score_formula_and_bounds (e s n : ℚ)
    (he : 0 ≤ e ∧ e ≤ 1) (hs : 0 ≤ s ∧ s ≤ 1) (hn : 0 ≤ n ∧ n ≤ 1) :
    scaledFinalScore e s n = round2 (100 * (0.50 * e + 0.35 * s + 0.15 * n))
    ∧ 0 ≤ scaledFinalScore e s n
    ∧ scaledFinalScore e s n ≤ 100
    ∧ wEmbedding + wSkill + wNerBonus = 1 := by
  obtain ⟨he0, he1⟩ := he
  obtain ⟨hs0, hs1⟩ := hs
  obtain ⟨hn0, hn1⟩ := hn
  have harg : hybridFinalScore e s n * 100 = 100 * (0.50 * e + 0.35 * s + 0.15 * n) := by
    unfold hybridFinalScore wEmbedding wSkill wNerBonus
    ring
  refine ⟨by rw [scaledFinalScore, harg], ?_, ?_, by norm_num [wEmbedding, wSkill, wNerBonus]⟩
  · exact round2_nonneg _ (by nlinarith [hybridFinalScore_nonneg e s n he0 hs0 hn0])
  · exact round2_le_100 _ (by nlinarith [hybridFinalScore_le_one e s n he1 hs1 hn1])

/-- Witness for C2 at `e = s = n = 1/2`. -/
theorem final_score_formula_and_bounds_witness :
    scaledFinalScore (1/2) (1/2) (1/2)
      = round2 (100 * (0.50 * (1/2) + 0.35 * (1/2) + 0.15 * (1/2)))
    ∧ 0 ≤ scaledFinalScore (1/2) (1/2) (1/2)
    ∧ scaledFinalScore (1/2) (1/2) (1/2) ≤ 100
    ∧ wEmbedding + wSkill + wNerBonus = 1 :=
  final_score_formula_and_bounds (1/2) (1/2) (1/2)
    ⟨by norm_num, by norm_num⟩ ⟨by norm_num, by norm_num⟩ ⟨by norm_num, by norm_num⟩

/-- Claim C3, counterexample: at the raw similarity `1.0000002` named by the
claim itself, the embedding component exposed in the screening result is
`100`, which violates the claimed bound `x ≤ 1` (the exposed value is the
clamped similarity scaled to `[0,100]`). -/
theorem exposed_embedding_counterexample :
    exposedEmbeddingScore (10000002 / 10000000) = 100
    ∧ ¬ exposedEmbeddingScore (10000002 / 10000000) ≤ 1 := by
  have h : exposedEmbeddingScore (10000002 / 10000000) = 100 := by
    have hc : clamp01 (10000002 / 10000000) = 1 := by
      unfold clamp01
      rw [min_eq_left (by norm_num), max_eq_right (by norm_num)]
    rw [exposedEmbeddingScore, hc]
    norm_num [round2, round_eq]
  exact ⟨h, by rw [h]; norm_num⟩

/-- Claim C3 (amended): the clamped embedding similarity lies in `[0,1]` for
every raw scorer output, and the embedding component exposed in the screening
result is that clamped value scaled by `round(· × 100, 2)`, hence lies in
`[0, 100]` (not `[0, 1]`). -/
theorem exposed_embedding_clamped (raw : ℚ) :
    0 ≤ clamp01 raw ∧ clamp01 raw ≤ 1
    ∧ exposedEmbeddingScore raw = round2 (clamp01 raw * 100)
    ∧ 0 ≤ exposedEmbeddingScore raw
    ∧ exposedEmbeddingScore raw ≤ 100 := by
  refine ⟨clamp01_nonneg raw, clamp01_le_one raw, rfl, ?_, ?_⟩
  · exact round2_nonneg _ (by nlinarith [clamp01_nonneg raw])
  · exact round2_le_100 _ (by nlinarith [clamp01_le_one raw])

/-- Claim C8: for every pair of extractor backends and every path whose
lower-cased extension is neither `.pdf` nor `.docx`, `parse_resume_file`
fails with the unsupported-format error, and (being the same for all
backends) never invokes an extractor. -/
theorem unsupported_format_rejected
    (extractPdf extractDocx : List Char → Except (List Char) (List Char))
    (path : List Char)
    (hpdf : lowerChars (extOf path) ≠ (".pdf").data)
    (hdocx : lowerChars (extOf path) ≠ (".docx").data) :
    parseResumeFile extractPdf extractDocx path
      = .error (.unsupportedFormat (lowerChars (extOf path))) := by
  simp [parseResumeFile, hpdf, hdocx]

/-- Witness for C8 at the path `resume.txt` with two arbitrary backends. -/
theorem unsupported_format_rejected_witness :
    lowerChars (extOf ("resume.txt").data) ≠ (".pdf").data
    ∧ lowerChars (extOf ("resume.txt").data) ≠ (".docx").data
    ∧ parseResumeFile (fun _ => .ok []) (fun p => .ok p) (("resume.txt").data)
        = .error (.unsupportedFormat (lowerChars (extOf ("resume.txt").data))) :=
  ⟨by decide, by decide,
    unsupported_format_rejected (fun _ => .ok []) (fun p => .ok p)
      (("resume.txt").data) (by decide) (by decide)⟩

/-- Claim C9: the synchronous screen endpoint's output (extracted skills,
matched skills, match score and decision) depends only on the job's
`required_skills`; two requests for rows of the same job produce identical
results whatever the uploaded resume files contain. -/
theorem sync_screen_ignores_resume (r1 r2 : ResumeRow)
    (h : r1.jobRequiredSkills = r2.jobRequiredSkills) :
    screenEndpoint r1 = screenEndpoint r2 := by
  unfold screenEndpoint
  rw [h]

/-- Witness for C9: two rows of the same job with different resume contents. -/
theorem sync_screen_ignores_resume_witness :
    screenEndpoint
        { jobRequiredSkills := ("Python, Django").data
          jobDescription := ("desc").data
          fileContent := ("resume text A").data }
      = screenEndpoint
        { jobRequiredSkills := ("Python, Django").data
          jobDescription := ("desc").data
          fileContent := ("totally different resume").data } :=
  sync_screen_ignores_resume _ _ rfl

/-- Claim C10: in both screening paths the matched-skills list is a sublist
of the extracted-skills list — every matched skill appears among the
extracted skills and the relative order of `extracted_skills` is preserved. -/
theorem matched_skills_sublist_of_extracted (rawSimilarity : ℚ)
    (resumeSkills jobSkills : List (List Char)) (nerBonus : ℚ)
    (jobDescription : List Char) :
    List.Sublist
        (runMLScreening rawSimilarity resumeSkills jobSkills nerBonus
          jobDescription).matched_skills
        (runMLScreening rawSimilarity resumeSkills jobSkills nerBonus
          jobDescription).extracted_skills
    ∧ (∀ s ∈ (runMLScreening rawSimilarity resumeSkills jobSkills nerBonus
          jobDescription).matched_skills,
        s ∈ (runMLScreening rawSimilarity resumeSkills jobSkills nerBonus
          jobDescription).extracted_skills)
    ∧ (∀ required : List Char,
        List.Sublist (syncScreenCompute required).matched_skills
          (syncScreenCompute required).extracted_skills) := by
  have h1 : List.Sublist
      (runMLScreening rawSimilarity resumeSkills jobSkills nerBonus
        jobDescription).matched_skills
      (runMLScreening rawSimilarity resumeSkills jobSkills nerBonus
        jobDescription).extracted_skills := by
    show List.Sublist (mlMatchedSkills resumeSkills jobDescription) resumeSkills
    exact List.filter_sublist resumeSkills
  refine ⟨h1, fun s hs => h1.subset hs, fun required => ?_⟩
  show List.Sublist (syncMatchedSkills required) extractedSkillsMock
  simp only [syncMatchedSkills]
  exact List.filter_sublist extractedSkillsMock

lemma runEvents_cons (r : ResumeRecord) (e : ScreenEvent) (rest : List ScreenEvent) :
    runEvents r (e :: rest) = runEvents (applyEvent r e) rest := rfl

lemma runEvents_screened_at (evts : List ScreenEvent) (r : ResumeRecord) :
    ((runEvents r evts).screened_at ≠ none
      ↔ (r.screened_at ≠ none ∨ ∃ e ∈ evts, eventSucceeded e = true)) := by
  induction evts generalizing r with
  | nil => simp [runEvents]
  | cons e rest ih =>
    rw [runEvents_cons, ih]
    cases e with
    | taskSuccess res t =>
        simp [applyEvent, taskSuccessResume, eventSucceeded]
    | taskFailure msg =>
        simp [applyEvent, taskFailureResume, eventSucceeded]
    | syncScreen required t =>
        simp [applyEvent, syncScreenResume, eventSucceeded]

/-- Claim C1, counterexample: starting from a fresh record, a successful
attempt followed by a failed re-screening leaves `screened_at` non-null
(the failure branch writes only `error_message`), so `screened_at` being
non-null is not equivalent to the last attempt having succeeded. -/
theorem screened_at_last_attempt_counterexample :
    (runEvents freshResume successThenFailure).screened_at = some 5
    ∧ (runEvents freshResume successThenFailure).error_message
        = ("cannot parse PDF").data
    ∧ lastAttemptSucceeded successThenFailure = false
    ∧ ¬(((runEvents freshResume successThenFailure).screened_at ≠ none)
        ↔ lastAttemptSucceeded successThenFailure = true) := by
  have hs : (runEvents freshResume successThenFailure).screened_at = some 5 := rfl
  have hl : lastAttemptSucceeded successThenFailure = false := rfl
  refine ⟨hs, rfl, hl, fun hiff => ?_⟩
  have : lastAttemptSucceeded successThenFailure = true := hiff.mp (by rw [hs]; simp)
  rw [hl] at this
  exact Bool.false_ne_true this

/-- Claim C1 (amended): `screened_at` is non-null iff at least one completed
attempt has succeeded — a later failure does not clear it; the async task
clears `error_message` on success and sets it to the exception's message on
failure while leaving `screened_at` untouched; the synchronous endpoint sets
`screened_at` but leaves `error_message` unchanged. -/
theorem screened_at_iff_some_success (evts : List ScreenEvent) :
    ((runEvents freshResume evts).screened_at ≠ none
      ↔ ∃ e ∈ evts, eventSucceeded e = true)
    ∧ (∀ (r : ResumeRecord) (res : MLResult) (t : ℕ),
        (taskSuccessResume r res t).error_message = []
        ∧ (taskSuccessResume r res t).screened_at = some t)
    ∧ (∀ (r : ResumeRecord) (msg : List Char),
        (taskFailureResume r msg).error_message = msg
        ∧ (taskFailureResume r msg).screened_at = r.screened_at)
    ∧ (∀ (r : ResumeRecord) (required : List Char) (t : ℕ),
        (syncScreenResume r required t).error_message = r.error_message
        ∧ (syncScreenResume r required t).screened_at = some t) := by
  refine ⟨?_, fun r res t => ⟨rfl, rfl⟩, fun r msg => ⟨rfl, rfl⟩,
    fun r required t => ⟨rfl, rfl⟩⟩
  simpa [freshResume] using runEvents_screened_at evts freshResume

/-- Claim C6 (code bug): the success branch persists only
`{match_score, extracted_skills, matched_skills, decision, screened_at,
error_message}` — `ner_bonus`, though returned by the pipeline, named in the
spec's write contract, and declared as a model field by
`ResumeResultSerializer`, is not a `Resume` column and is not in the task's
`update_fields`; `error_message` is cleared and `match_score`/decision are
propagated to the candidate. -/
theorem ner_bonus_never_persisted :
    (("ner_bonus" ∈ specWriteContract)
      ∧ ("ner_bonus" ∈ resumeResultSerializerFields))
    ∧ (("ner_bonus" ∉ resumeModelFields)
      ∧ ("ner_bonus" ∉ screenSuccessUpdateFields)
      ∧ ("ner_bonus" ∉ screenFailureUpdateFields)
      ∧ ("ner_bonus" ∉ syncScreenUpdateFields))
    ∧ (taskSuccessResume freshResume demoResult 5).error_message = []
    ∧ (taskSuccessResume freshResume demoResult 5).match_score = demoResult.score
    ∧ (taskSuccessResume freshResume demoResult 5).screened_at = some 5
    ∧ (taskSuccessCandidate freshCandidate demoResult).match_score
        = some demoResult.score
    ∧ (taskSuccessCandidate freshCandidate demoResult).status
        = demoResult.decision.toStatus :=
  ⟨⟨by decide, by decide⟩, ⟨by decide, by decide, by decide, by decide⟩,
    rfl, rfl, rfl, rfl, rfl⟩

/-- Claim C7: in both screening paths the decision is `SHORTLISTED` exactly
when the score reaches `60`, and the boundary input with all three components
equal to `0.6` produces a final score of exactly `60` and is shortlisted. -/
theorem shortlisted_iff_score_ge_60 :
    (∀ e s n : ℚ, mlDecision e s n = .SHORTLISTED ↔ 60 ≤ scaledFinalScore e s n)
    ∧ (∀ required : List Char,
        syncDecision required = .SHORTLISTED ↔ 60 ≤ syncRawScore required)
    ∧ scaledFinalScore 0.6 0.6 0.6 = 60
    ∧ mlDecision 0.6 0.6 0.6 = .SHORTLISTED := by
  have hb : scaledFinalScore 0.6 0.6 0.6 = 60 := by
    norm_num [scaledFinalScore, hybridFinalScore, wEmbedding, wSkill, wNerBonus,
      round2, round_eq]
  refine ⟨fun e s n => ?_, fun required => ?_, hb, ?_⟩
  · unfold mlDecision
    split
    · next h => simpa using h
    · next h =>
        simp only [ge_iff_le] at h
        simp [h]
  · unfold syncDecision
    split
    · next h => simpa using h
    · next h =>
        simp only [ge_iff_le] at h
        simp [h]
  · unfold mlDecision
    rw [hb]
    norm_num

lemma celeryGo_success (outcomes : ℕ → AttemptOutcome) (fuel k : ℕ)
    (r : ResumeRecord) (res : MLResult) (t : ℕ)
    (h : outcomes k = .success res t) :
    celeryGo outcomes (fuel + 1) k r = (taskSuccessResume r res t, k + 1, []) := by
  simp [celeryGo, h]

lemma celeryGo_failure_retry (outcomes : ℕ → AttemptOutcome) (fuel k : ℕ)
    (r : ResumeRecord) (msg : List Char)
    (h : outcomes k = .failure msg) (hk : k < celeryMaxRetries) :
    celeryGo outcomes (fuel + 1) k r
      = ((celeryGo outcomes fuel (k + 1) (taskFailureResume r msg)).1,
         (celeryGo outcomes fuel (k + 1) (taskFailureResume r msg)).2.1,
         celeryRetryDelay
           :: (celeryGo outcomes fuel (k + 1) (taskFailureResume r msg)).2.2) := by
  simp [celeryGo, h, hk]

lemma celeryGo_failure_exhausted (outcomes : ℕ → AttemptOutcome) (fuel k : ℕ)
    (r : ResumeRecord) (msg : List Char)
    (h : outcomes k = .failure msg) (hk : ¬ k < celeryMaxRetries) :
    celeryGo outcomes (fuel + 1) k r = (taskFailureResume r msg, k + 1, []) := by
  simp [celeryGo, h, hk]

lemma celeryGo_attempts_le (outcomes : ℕ → AttemptOutcome) :
    ∀ (fuel k : ℕ) (r : ResumeRecord),
      (celeryGo outcomes fuel k r).2.1 ≤ k + fuel := by
  intro fuel
  induction fuel with
  | zero => intro k r; simp [celeryGo]
  | succ fuel ih =>
      intro k r
      cases h : outcomes k with
      | success res t =>
          rw [celeryGo_success outcomes fuel k r res t h]
          show k + 1 ≤ k + (fuel + 1)
          omega
      | failure msg =>
          by_cases hk : k < celeryMaxRetries
          · rw [celeryGo_failure_retry outcomes fuel k r msg h hk]
            have := ih (k + 1) (taskFailureResume r msg)
            show (celeryGo outcomes fuel (k + 1) (taskFailureResume r msg)).2.1
              ≤ k + (fuel + 1)
            omega
          · rw [celeryGo_failure_exhausted outcomes fuel k r msg h hk]
            show k + 1 ≤ k + (fuel + 1)
            omega

lemma celeryGo_delays_fixed (outcomes : ℕ → AttemptOutcome) :
    ∀ (fuel k : ℕ) (r : ResumeRecord),
      ∀ d ∈ (celeryGo outcomes fuel k r).2.2, d = celeryRetryDelay := by
  intro fuel
  induction fuel with
  | zero => intro k r d hd; simp [celeryGo] at hd
  | succ fuel ih =>
      intro k r d hd
      cases h : outcomes k with
      | success res t =>
          rw [celeryGo_success outcomes fuel k r res t h] at hd
          simp at hd
      | failure msg =>
          by_cases hk : k < celeryMaxRetries
          · rw [celeryGo_failure_retry outcomes fuel k r msg h hk] at hd
            rcases List.mem_cons.mp hd with h1 | h1
            · exact h1
            · exact ih (k + 1) (taskFailureResume r msg) d h1
          · rw [celeryGo_failure_exhausted outcomes fuel k r msg h hk] at hd
            simp at hd

/-- Claim C4, counterexample: with `max_retries=3` Celery runs the task body
up to four times (one initial attempt plus three retries); on a stream of
failures one enqueued screening executes 4 attempts, exceeding the claimed
bound of 3. -/
theorem retry_attempt_count_counterexample :
    (celeryRun allFailOutcomes freshResume).2.1 = 4
    ∧ ¬ (celeryRun allFailOutcomes freshResume).2.1 ≤ 3 := by
  have h : (celeryRun allFailOutcomes freshResume).2.1 = 4 := rfl
  exact ⟨h, by rw [h]; norm_num⟩

/-- Claim C4 (amended): retries use a fixed (non-exponential) 60-second
delay, one enqueued screening never exceeds `max_retries + 1 = 4` attempts,
and when every attempt fails with a non-empty message a record that was never
screened ends terminally with `screened_at` still null and a non-empty
`error_message`. -/
theorem retries_bounded_and_fixed_delay (outcomes : ℕ → AttemptOutcome)
    (r : ResumeRecord)
    (hfail : ∀ k, k ≤ celeryMaxRetries
      → ∃ msg, outcomes k = AttemptOutcome.failure msg ∧ msg ≠ [])
    (hfresh : r.screened_at = none) :
    (∀ (oc : ℕ → AttemptOutcome) (q : ResumeRecord),
        (celeryRun oc q).2.1 ≤ celeryMaxRetries + 1
        ∧ ∀ d ∈ (celeryRun oc q).2.2, d = celeryRetryDelay)
    ∧ ((celeryRun outcomes r).2.1 = celeryMaxRetries + 1
      ∧ (celeryRun outcomes r).2.2 = List.replicate celeryMaxRetries celeryRetryDelay
      ∧ (celeryRun outcomes r).1.screened_at = none
      ∧ (celeryRun outcomes r).1.error_message ≠ []) := by
  obtain ⟨m0, h0, hm0⟩ := hfail 0 (by norm_num [celeryMaxRetries])
  obtain ⟨m1, h1, hm1⟩ := hfail 1 (by norm_num [celeryMaxRetries])
  obtain ⟨m2, h2, hm2⟩ := hfail 2 (by norm_num [celeryMaxRetries])
  obtain ⟨m3, h3, hm3⟩ := hfail 3 (by norm_num [celeryMaxRetries])
  have hstep : celeryRun outcomes r
      = (taskFailureResume (taskFailureResume (taskFailureResume
          (taskFailureResume r m0) m1) m2) m3, 4,
         [celeryRetryDelay, celeryRetryDelay, celeryRetryDelay]) := by
    show celeryGo outcomes (3 + 1) 0 r = _
    rw [celeryGo_failure_retry outcomes 3 0 r m0 h0 (by norm_num [celeryMaxRetries]),
      show (3 : ℕ) = 2 + 1 from rfl,
      celeryGo_failure_retry outcomes 2 1 _ m1 h1 (by norm_num [celeryMaxRetries]),
      show (2 : ℕ) = 1 + 1 from rfl,
      celeryGo_failure_retry outcomes 1 2 _ m2 h2 (by norm_num [celeryMaxRetries]),
      show (1 : ℕ) = 0 + 1 from rfl,
      celeryGo_failure_exhausted outcomes 0 3 _ m3 h3 (by norm_num [celeryMaxRetries])]
  refine ⟨fun oc q => ⟨celeryGo_attempts_le oc (celeryMaxRetries + 1) 0 q,
      celeryGo_delays_fixed oc (celeryMaxRetries + 1) 0 q⟩, ?_, ?_, ?_, ?_⟩
  · rw [hstep]
    rfl
  · rw [hstep]
    rfl
  · rw [hstep]
    show r.screened_at = none
    exact hfresh
  · rw [hstep]
    exact hm3

/-- Witness for C4 (amended) on the all-failing outcome stream. -/
theorem retries_bounded_and_fixed_delay_witness :
    (celeryRun allFailOutcomes freshResume).2.1 = celeryMaxRetries + 1
    ∧ (celeryRun allFailOutcomes freshResume).2.2
        = List.replicate celeryMaxRetries celeryRetryDelay
    ∧ (celeryRun allFailOutcomes freshResume).1.screened_at = none
    ∧ (celeryRun allFailOutcomes freshResume).1.error_message ≠ [] :=
  (retries_bounded_and_fixed_delay allFailOutcomes freshResume
    (fun _ _ => ⟨("cannot open broken.pdf").data, rfl, by decide⟩) rfl).2

/-- Claim C5: batch dispatch enqueues exactly one screening attempt per
record of the job whose `screened_at` is null at dispatch time, returns that
number as the count, and enqueues nothing for already-screened records
(record ids assumed unique, as database primary keys are). -/
theorem batch_enqueues_unscreened_once (rows : List (ℕ × Option ℕ))
    (hids : (rows.map Prod.fst).Nodup) :
    (enqueueBatchScreening rows).2 = (rows.filter (fun row => row.2.isNone)).length
    ∧ ∀ row ∈ rows,
        (row.2 = none → (enqueueBatchScreening rows).1.count row.1 = 1)
        ∧ (row.2 ≠ none → row.1 ∉ (enqueueBatchScreening rows).1) := by
  have hpend : (enqueueBatchScreening rows).1
      = (rows.filter (fun q => q.2.isNone)).map Prod.fst := rfl
  refine ⟨by simp [enqueueBatchScreening], fun row hrow =>
    ⟨fun hnone => ?_, fun hsome hmem => ?_⟩⟩
  · have hmemf : row ∈ rows.filter (fun q => q.2.isNone) :=
      List.mem_filter.mpr ⟨hrow, by simp [hnone]⟩
    have hnodup : ((rows.filter (fun q => q.2.isNone)).map Prod.fst).Nodup := by
      have hsub := (List.filter_sublist (p := fun q => q.2.isNone) rows).map Prod.fst
      exact List.Nodup.sublist hsub hids
    rw [hpend]
    exact List.count_eq_one_of_mem hnodup (List.mem_map.mpr ⟨row, hmemf, rfl⟩)
  · rw [hpend] at hmem
    obtain ⟨q, hq, hq1⟩ := List.mem_map.mp hmem
    have hq2 := (List.mem_filter.mp hq).1
    have hq3 := (List.mem_filter.mp hq).2
    have heq : q = row := List.inj_on_of_nodup_map hids hq2 hrow hq1
    rw [heq] at hq3
    exact hsome (Option.isNone_iff_eq_none.mp hq3)

/-- Witness for C5 on the spec's scenario of five unscreened and two screened
records: five attempts are enqueued, an unscreened id exactly once, and a
screened id not at all. -/
theorem batch_enqueues_unscreened_once_witness :
    (batchDemoRows.map Prod.fst).Nodup
    ∧ (enqueueBatchScreening batchDemoRows).2 = 5
    ∧ (enqueueBatchScreening batchDemoRows).1.count 1 = 1
    ∧ 6 ∉ (enqueueBatchScreening batchDemoRows).1 :=
  ⟨by decide, by decide,
    ((batch_enqueues_unscreened_once batchDemoRows (by decide)).2
      (1, none) (by decide)).1 rfl,
    ((batch_enqueues_unscreened_once batchDemoRows (by decide)).2
      (6, some 100) (by decide)).2 (by decide)⟩

end HRMS
